import Mathlib

/-!
Verification of the `better-main` demonstration program (`src/main.cpp`).

The program has two components:
* a bounded arena allocator `my_cust_allocator` serving allocations out of a
  caller-supplied stack buffer, and
* an argument-view builder in `main` that wraps each raw `argv` entry as a
  string view and hands the resulting sequence to `better_main`, which prints
  the arguments quoted and space-separated to standard output.

We embed the arena as a structure over natural-number addresses and sizes
(`size_t` values are non-negative and no arithmetic here can overflow in
practice), `do_allocate` as an `Except` value (the C++ code throws
`std::bad_alloc`, the condition the spec names OutOfCapacity), and the
printing code as a pure function from the argument list to the string it
writes to standard output.
-/

namespace BetterMain

/-- The single allocator error: `do_allocate` throws `std::bad_alloc` when the
requested byte count exceeds the remaining capacity.  The spec names this
condition OutOfCapacity. -/
inductive AllocError where
  | OutOfCapacity
  deriving DecidableEq, Repr

/-- State of `my_cust_allocator` from `src/main.cpp` lines 32-51:
`buf` is the caller-supplied base address (a `void* const`, never mutated),
`buf_size` the remaining capacity in bytes (decremented by allocations), and
`max_buf_size` the fixed total capacity recorded at construction. -/
structure my_cust_allocator where
  buf : Nat
  buf_size : Nat
  max_buf_size : Nat
  deriving DecidableEq, Repr

/-- The constructor `my_cust_allocator(buf, buf_size)`: remaining capacity and
`max_buf_size` both start at the supplied buffer size. -/
def my_cust_allocator.mk_init (buf buf_size : Nat) : my_cust_allocator :=
  { buf := buf, buf_size := buf_size, max_buf_size := buf_size }

/-- `do_allocate(bytes, alignment)` (lines 40-47): if `bytes > buf_size` it
reports the failure and throws `std::bad_alloc` without touching any state;
otherwise it subtracts `bytes` from `buf_size` and returns the base pointer
`buf` (the alignment argument is ignored by the code). -/
def do_allocate (a : my_cust_allocator) (bytes alignment : Nat) :
    Except AllocError (Nat × my_cust_allocator) :=
  if bytes > a.buf_size then
    Except.error AllocError.OutOfCapacity
  else
    Except.ok (a.buf, { a with buf_size := a.buf_size - bytes })

/-- `do_deallocate(p, bytes, alignment)` (line 48): an empty body, so the
allocator state is returned unchanged. -/
def do_deallocate (a : my_cust_allocator) (p bytes alignment : Nat) :
    my_cust_allocator :=
  a

/-- `do_is_equal` (line 49): always reports `false`. -/
def do_is_equal (a other : my_cust_allocator) : Bool :=
  false

/-- An operation performed on the arena: an allocation request or a
deallocation request. -/
inductive ArenaOp where
  | alloc (bytes alignment : Nat)
  | dealloc (p bytes alignment : Nat)
  deriving DecidableEq, Repr

/-- The arena state after one operation.  A failed allocation throws before
any state is modified, so it leaves the arena unchanged. -/
def stepArena (a : my_cust_allocator) : ArenaOp → my_cust_allocator
  | ArenaOp.alloc bytes alignment =>
    match do_allocate a bytes alignment with
    | Except.ok (_, a2) => a2
    | Except.error _ => a
  | ArenaOp.dealloc p bytes alignment => do_deallocate a p bytes alignment

/-- The arena state after a sequence of operations. -/
def runArena (a : my_cust_allocator) (ops : List ArenaOp) : my_cust_allocator :=
  ops.foldl stepArena a

/-- Run a sequence of allocation requests (all with alignment `al`),
returning `none` as soon as one of them fails. -/
def alloc_all (al : Nat) : my_cust_allocator → List Nat →
    Option my_cust_allocator
  | a, [] => some a
  | a, bytes :: rest =>
    match do_allocate a bytes al with
    | Except.ok (_, a2) => alloc_all al a2 rest
    | Except.error _ => none

/-- The argument-view builder of `main` (lines 53-57): starting from an empty
vector, `emplace_back` each raw argument in order.  Each `std::string_view`
wraps the raw argument's characters without transforming them, which we model
by storing the raw string itself. -/
def build_args (argv : List String) : List String :=
  argv.foldl (fun args s => args ++ [s]) []

/-- `sizeof(std::string_view)` on the LP64 platforms the program targets:
a pointer plus a length, 16 bytes. -/
def sizeof_string_view : Nat := 16

/-- The stack buffer size computed by `main` (line 29):
`(argc + 1) * sizeof(std::string_view)`. -/
def main_buf_size (argc : Nat) : Nat :=
  (argc + 1) * sizeof_string_view

/-- The byte count requested from the arena by `args.reserve(argc)`
(line 54): storage for `argc` records of `sizeof(std::string_view)` bytes. -/
def reserve_bytes (argc : Nat) : Nat :=
  argc * sizeof_string_view

/-- The lambda `prn_arg` in `better_main` (lines 74-79): writes the argument
double-quoted. -/
def prn_arg (arg : String) : String :=
  "\"" ++ arg ++ "\""

/-- Everything `better_main` (lines 71-88) writes to standard output: the
literal `DEBUG: ` (line 80), then each argument but the last quoted and
followed by a space (lines 82-84), then the last argument quoted and followed
by a newline (line 85). -/
def better_main_stdout (args : List String) : String :=
  "DEBUG: "
    ++ String.join ((List.range (args.length - 1)).map
        (fun i => prn_arg (args.getD i "") ++ " "))
    ++ prn_arg (args.getD (args.length - 1) "")
    ++ "\n"

/-- The value `better_main` returns (line 87): always 0, and `main` returns
it unchanged (line 59), so it is the process exit status. -/
def better_main_ret (args : List String) : Int := 0

/-- The value of `last_i` in `better_main` (line 81): `args.size() - 1`, which
is -1 when the sequence is empty (the `size_t` difference wraps and the `int`
narrowing yields -1 on the targeted platforms). -/
def better_main_last_i (args : List String) : Int :=
  (args.length : Int) - 1

/-- Every index at which `better_main` reads `args`: the loop indices
`0 .. last_i - 1` (lines 82-84) and then, unconditionally, `last_i` itself
(line 85). -/
def better_main_read_indices (args : List String) : List Int :=
  ((List.range (args.length - 1)).map Int.ofNat)
    ++ [better_main_last_i args]

/-- An index is in bounds for a span of the given list. -/
def span_in_bounds (args : List String) (i : Int) : Prop :=
  0 ≤ i ∧ i < (args.length : Int)

instance (args : List String) (i : Int) : Decidable (span_in_bounds args i) :=
  inferInstanceAs (Decidable (_ ∧ _))

/-! ### Helper lemmas -/

/-- Anatomy of a successful allocation: the returned pointer is the base
address, the remaining capacity drops by exactly the requested bytes, and the
base address and total capacity are untouched. -/
theorem do_allocate_ok_spec (a a' : my_cust_allocator) (bytes al p : Nat)
    (h : do_allocate a bytes al = Except.ok (p, a')) :
    p = a.buf ∧ bytes ≤ a.buf_size ∧ a'.buf_size + bytes = a.buf_size ∧
      a'.buf = a.buf ∧ a'.max_buf_size = a.max_buf_size := by
  unfold do_allocate at h
  by_cases hgt : bytes > a.buf_size
  · simp [hgt] at h
  · simp [hgt] at h
    obtain ⟨hp, ha⟩ := h
    subst hp
    subst ha
    refine ⟨rfl, Nat.le_of_not_lt hgt, ?_, rfl, rfl⟩
    simp
    omega

/-- A failed allocation is exactly an overlarge request. -/
theorem do_allocate_error_iff (a : my_cust_allocator) (bytes al : Nat) :
    do_allocate a bytes al = Except.error AllocError.OutOfCapacity ↔
      bytes > a.buf_size := by
  unfold do_allocate
  by_cases hgt : bytes > a.buf_size <;> simp [hgt]

/-- Each arena operation preserves the base address and total capacity and
never increases the remaining capacity. -/
theorem stepArena_spec (a : my_cust_allocator) (op : ArenaOp) :
    (stepArena a op).buf = a.buf ∧
      (stepArena a op).max_buf_size = a.max_buf_size ∧
      (stepArena a op).buf_size ≤ a.buf_size := by
  cases op with
  | alloc bytes al =>
    unfold stepArena
    cases hres : do_allocate a bytes al with
    | ok r =>
      obtain ⟨p, a2⟩ := r
      obtain ⟨_, _, h3, h4, h5⟩ := do_allocate_ok_spec a a2 bytes al p hres
      simp only [hres]
      exact ⟨h4, h5, by omega⟩
    | error e =>
      simp only [hres]
      exact ⟨trivial, trivial, Nat.le_refl _⟩
  | dealloc p bytes al => simp [stepArena, do_deallocate]

/-- Arena runs preserve the base address and total capacity and never
increase the remaining capacity. -/
theorem runArena_spec (ops : List ArenaOp) :
    ∀ a : my_cust_allocator,
      (runArena a ops).buf = a.buf ∧
        (runArena a ops).max_buf_size = a.max_buf_size ∧
        (runArena a ops).buf_size ≤ a.buf_size := by
  induction ops with
  | nil => intro a; exact ⟨rfl, rfl, Nat.le_refl _⟩
  | cons op rest ih =>
    intro a
    obtain ⟨h1, h2, h3⟩ := stepArena_spec a op
    obtain ⟨g1, g2, g3⟩ := ih (stepArena a op)
    exact ⟨by simpa [runArena] using g1.trans h1,
      by simpa [runArena] using g2.trans h2,
      by simpa [runArena] using g3.trans h3⟩

/-- A batch of allocation requests whose total stays within the remaining
capacity all succeed. -/
theorem alloc_all_isSome (al : Nat) (sizes : List Nat) :
    ∀ a : my_cust_allocator, sizes.sum ≤ a.buf_size →
      (alloc_all al a sizes).isSome = true := by
  induction sizes with
  | nil => intro a _; rfl
  | cons s rest ih =>
    intro a h
    have hsum : s + rest.sum ≤ a.buf_size := by simpa using h
    have hs : ¬ s > a.buf_size := by omega
    unfold alloc_all do_allocate
    simp only [hs, if_false]
    exact ih _ (by simp; omega)

/-- The builder is the identity on the raw argument list. -/
theorem build_args_eq (argv : List String) : build_args argv = argv := by
  have general : ∀ (l acc : List String),
      l.foldl (fun args s => args ++ [s]) acc = acc ++ l := by
    intro l
    induction l with
    | nil => intro acc; simp
    | cons x xs ih => intro acc; simp [List.foldl, ih]
  simpa [build_args] using general argv []

/-! ### Claim theorems -/

/-- C1: if a requested size exceeds the remaining capacity, `allocate` fails
with OutOfCapacity and leaves the arena (in particular its remaining
capacity) unchanged; and a sequence of allocations whose total size stays
within the configured capacity never fails. -/
theorem C1_out_of_capacity_and_within_total
    (a : my_cust_allocator) (bytes al : Nat)
    (b c al2 : Nat) (sizes : List Nat)
    (hfail : bytes > a.buf_size) (htotal : sizes.sum ≤ c) :
    (do_allocate a bytes al = Except.error AllocError.OutOfCapacity ∧
      stepArena a (ArenaOp.alloc bytes al) = a) ∧
    (alloc_all al2 (my_cust_allocator.mk_init b c) sizes).isSome = true := by
  have herr := (do_allocate_error_iff a bytes al).mpr hfail
  refine ⟨⟨herr, ?_⟩, alloc_all_isSome al2 sizes _ htotal⟩
  simp [stepArena, herr]

/-- Witness for C1 at a concrete failing request and a concrete in-capacity
batch. -/
theorem C1_witness :
    ((5 : Nat) > (my_cust_allocator.mk_init 0 4).buf_size ∧
      ([3, 7] : List Nat).sum ≤ 10) ∧
    ((do_allocate (my_cust_allocator.mk_init 0 4) 5 8 =
        Except.error AllocError.OutOfCapacity ∧
      stepArena (my_cust_allocator.mk_init 0 4) (ArenaOp.alloc 5 8) =
        my_cust_allocator.mk_init 0 4) ∧
    (alloc_all 8 (my_cust_allocator.mk_init 0 10) [3, 7]).isSome = true) :=
  ⟨⟨by decide, by decide⟩,
    C1_out_of_capacity_and_within_total (my_cust_allocator.mk_init 0 4) 5 8
      0 10 8 [3, 7] (by decide) (by decide)⟩

/-- C4: after every successful `allocate(size, alignment)` the remaining
capacity is exactly the previous remaining capacity minus `size`. -/
theorem C4_success_decrements_capacity (a a' : my_cust_allocator)
    (bytes al p : Nat)
    (h : do_allocate a bytes al = Except.ok (p, a')) :
    a'.buf_size + bytes = a.buf_size :=
  (do_allocate_ok_spec a a' bytes al p h).2.2.1

/-- Witness for C4 at a concrete successful allocation. -/
theorem C4_witness :
    do_allocate (my_cust_allocator.mk_init 0 10) 3 8 =
        Except.ok (0, my_cust_allocator.mk 0 7 10) ∧
    (my_cust_allocator.mk 0 7 10).buf_size + 3 =
        (my_cust_allocator.mk_init 0 10).buf_size :=
  ⟨rfl,
    C4_success_decrements_capacity (my_cust_allocator.mk_init 0 10)
      (my_cust_allocator.mk 0 7 10) 3 8 0 rfl⟩

/-- C5: in every reachable arena state, a successful `allocate` returns the
base address of the caller-supplied buffer; the returned address never
advances past previously allocated bytes. -/
theorem C5_returns_base_pointer (b c : Nat) (ops : List ArenaOp)
    (bytes al p : Nat) (a' : my_cust_allocator)
    (h : do_allocate (runArena (my_cust_allocator.mk_init b c) ops) bytes al
          = Except.ok (p, a')) :
    p = b := by
  have hrun := (runArena_spec ops (my_cust_allocator.mk_init b c)).1
  have hp := (do_allocate_ok_spec _ _ bytes al p h).1
  rw [hp, hrun]
  rfl

/-- Witness for C5: after a prior allocation and a deallocation, the next
successful allocation still returns the base address 100. -/
theorem C5_witness :
    do_allocate (runArena (my_cust_allocator.mk_init 100 32)
        [ArenaOp.alloc 4 8, ArenaOp.dealloc 100 4 8]) 8 8 =
      Except.ok (100, my_cust_allocator.mk 100 20 32) ∧
    (100 : Nat) = 100 :=
  ⟨rfl,
    C5_returns_base_pointer 100 32 [ArenaOp.alloc 4 8, ArenaOp.dealloc 100 4 8]
      8 8 100 (my_cust_allocator.mk 100 20 32) rfl⟩

/-- C7: `deallocate` is a no-op for any arguments: the whole arena state, and
in particular the remaining capacity, is unchanged. -/
theorem C7_deallocate_is_noop (a : my_cust_allocator) (p bytes al : Nat) :
    do_deallocate a p bytes al = a ∧
    (do_deallocate a p bytes al).buf_size = a.buf_size :=
  ⟨rfl, rfl⟩

/-- C8: across any sequence of arena operations the remaining capacity never
increases, and every region returned by a successful allocation lies within
the bounds of the original caller-supplied buffer. -/
theorem C8_monotone_capacity_and_in_bounds (b c : Nat) (ops : List ArenaOp)
    (op : ArenaOp) (bytes al p : Nat) (a' : my_cust_allocator)
    (h : do_allocate (runArena (my_cust_allocator.mk_init b c) ops) bytes al
          = Except.ok (p, a')) :
    (stepArena (runArena (my_cust_allocator.mk_init b c) ops) op).buf_size
        ≤ (runArena (my_cust_allocator.mk_init b c) ops).buf_size ∧
      b ≤ p ∧ p + bytes ≤ b + c := by
  obtain ⟨hbuf, _, hle⟩ := runArena_spec ops (my_cust_allocator.mk_init b c)
  obtain ⟨hp, hbytes, _, _, _⟩ := do_allocate_ok_spec _ _ bytes al p h
  have hpb : p = b := by rw [hp, hbuf]; rfl
  have hcap : (runArena (my_cust_allocator.mk_init b c) ops).buf_size ≤ c := hle
  exact ⟨(stepArena_spec _ op).2.2, by omega, by omega⟩

/-- Witness for C8 at a concrete run: one prior allocation, then a
deallocation step and a successful 8-byte allocation. -/
theorem C8_witness :
    do_allocate (runArena (my_cust_allocator.mk_init 0 16)
        [ArenaOp.alloc 4 8]) 8 8 =
      Except.ok (0, my_cust_allocator.mk 0 4 16) ∧
    ((stepArena (runArena (my_cust_allocator.mk_init 0 16)
          [ArenaOp.alloc 4 8]) (ArenaOp.dealloc 0 4 8)).buf_size
        ≤ (runArena (my_cust_allocator.mk_init 0 16)
            [ArenaOp.alloc 4 8]).buf_size ∧
      (0 : Nat) ≤ 0 ∧ 0 + 8 ≤ 0 + 16) :=
  ⟨rfl,
    C8_monotone_capacity_and_in_bounds 0 16 [ArenaOp.alloc 4 8]
      (ArenaOp.dealloc 0 4 8) 8 8 0 (my_cust_allocator.mk 0 4 16) rfl⟩

/-- C9: for every argument count, the single reservation of
`argc * sizeof(std::string_view)` bytes fits in the arena capacity of
`(argc + 1) * sizeof(std::string_view)` bytes, so the OutOfCapacity branch
is unreachable on the program's normal path. -/
theorem C9_reserve_within_capacity (argc buf al : Nat) :
    ∃ p a', do_allocate (my_cust_allocator.mk_init buf (main_buf_size argc))
        (reserve_bytes argc) al = Except.ok (p, a') := by
  have hle : reserve_bytes argc ≤ main_buf_size argc := by
    unfold reserve_bytes main_buf_size sizeof_string_view
    omega
  refine ⟨buf,
    ⟨buf, main_buf_size argc - reserve_bytes argc, main_buf_size argc⟩, ?_⟩
  unfold do_allocate
  simp [my_cust_allocator.mk_init, Nat.not_lt.mpr hle]

/-- C2 counterexample: on arguments `["prog", "hello", "world"]` the program
does not write exactly the quoted list followed by a newline, because
`better_main` first writes the literal `DEBUG: ` to standard output. -/
theorem C2_counterexample :
    ¬ (better_main_stdout ["prog", "hello", "world"] =
          "\"prog\" \"hello\" \"world\"\n" ∧
        better_main_ret ["prog", "hello", "world"] = 0) := by
  intro hcl
  exact absurd hcl.1 (by decide)

/-- C2 (amended): on arguments `["prog", "hello", "world"]` standard output
is exactly `DEBUG: ` followed by the quoted, space-separated arguments and a
newline, and the exit status is 0. -/
theorem C2_amended_output :
    better_main_stdout ["prog", "hello", "world"] =
        "DEBUG: \"prog\" \"hello\" \"world\"\n" ∧
      better_main_ret ["prog", "hello", "world"] = 0 := by
  exact ⟨by decide, rfl⟩

/-- C3: the Argument Sequence built by `main` has length exactly the argument
count, and element `i` is exactly the character content of raw argument `i`,
in order, untransformed. -/
theorem C3_args_sequence_exact (argv : List String) (h : 1 ≤ argv.length) :
    (build_args argv).length = argv.length ∧
      ∀ i, i < argv.length → (build_args argv).getD i "" = argv.getD i "" := by
  rw [build_args_eq]
  exact ⟨rfl, fun i _ => rfl⟩

/-- Witness for C3 at the concrete argument list
`["prog", "hello", "world"]`. -/
theorem C3_witness :
    1 ≤ (["prog", "hello", "world"] : List String).length ∧
    ((build_args ["prog", "hello", "world"]).length =
        (["prog", "hello", "world"] : List String).length ∧
      ∀ i, i < (["prog", "hello", "world"] : List String).length →
        (build_args ["prog", "hello", "world"]).getD i "" =
          (["prog", "hello", "world"] : List String).getD i "") :=
  ⟨by decide, C3_args_sequence_exact ["prog", "hello", "world"] (by decide)⟩

/-- C6 counterexample: on the single argument `["prog"]` the program does not
write exactly `"prog"` followed by a newline, because `better_main` first
writes the literal `DEBUG: ` to standard output. -/
theorem C6_counterexample :
    ¬ (better_main_stdout ["prog"] = "\"prog\"\n" ∧
        better_main_ret ["prog"] = 0) := by
  intro hcl
  exact absurd hcl.1 (by decide)

/-- C6 (amended): on the single argument `["prog"]` standard output is
exactly `DEBUG: ` followed by `"prog"` and a newline — no separator and no
trailing space is emitted for a single-element sequence — and the exit status
is 0. -/
theorem C6_amended_output :
    better_main_stdout ["prog"] = "DEBUG: \"prog\"\n" ∧
      better_main_ret ["prog"] = 0 := by
  exact ⟨by decide, rfl⟩

/-- C10: `better_main` reads index `size - 1` unconditionally; for every
non-empty sequence all the indices it reads are in bounds, while for the
empty sequence that final read would be out of bounds. -/
theorem C10_last_index_access (args : List String) (h : 1 ≤ args.length) :
    (∀ i ∈ better_main_read_indices args, span_in_bounds args i) ∧
      ¬ span_in_bounds [] (better_main_last_i []) := by
  constructor
  · intro i hi
    unfold better_main_read_indices at hi
    rw [List.mem_append] at hi
    cases hi with
    | inl hmem =>
      simp only [List.mem_map, List.mem_range] at hmem
      obtain ⟨j, hjlt, rfl⟩ := hmem
      unfold span_in_bounds
      simp only [Int.ofNat_eq_coe]
      omega
    | inr hmem =>
      rw [List.mem_singleton] at hmem
      subst hmem
      unfold span_in_bounds better_main_last_i
      omega
  · decide

/-- Witness for C10 at the concrete single-element sequence `["prog"]`. -/
theorem C10_witness :
    1 ≤ (["prog"] : List String).length ∧
    ((∀ i ∈ better_main_read_indices ["prog"], span_in_bounds ["prog"] i) ∧
      ¬ span_in_bounds [] (better_main_last_i [])) :=
  ⟨by decide, C10_last_index_access ["prog"] (by decide)⟩

end BetterMain
